import Mathlib

/-!
Verification of the quadcopter Task environment (`P5_Quadcopter/task_AC.py`).

The numeric code (numpy double arithmetic) is embedded over the real numbers:
`np.sqrt` becomes `Real.sqrt`, `np.tanh` becomes `Real.tanh`, `np.pi` becomes
`Real.pi`.  3-vectors are the structure `Vec3`, the 6-component pose is a pair
of `Vec3`s (position and Euler angles).  Python methods that mutate `self`
are embedded as functions returning the updated `Task` together with their
Python return value.  The external physics simulator (`physics_sim.PhysicsSim`,
not part of the source under verification) is a state record whose
`next_timestep` transition is an arbitrary parameter; its constructor and
`reset` are modelled from the spec.
-/

noncomputable section

namespace QuadTask

/-- Three real components, the embedding of a numpy 3-vector. -/
structure Vec3 where
  x : ℝ
  y : ℝ
  z : ℝ

instance : Sub Vec3 := ⟨fun a b => ⟨a.x - b.x, a.y - b.y, a.z - b.z⟩⟩

theorem Vec3.sub_def (a b : Vec3) : a - b = ⟨a.x - b.x, a.y - b.y, a.z - b.z⟩ := rfl

/-- Embedding of `smoothabs(x) = np.sqrt(np.square(x) + 10e-16)` (module level, line 5). -/
def smoothabs (x : ℝ) : ℝ := Real.sqrt (x ^ 2 + 10e-16)

/-- Embedding of `smoothmin(a, b)` (module level, line 8); present for parity, unused by the live reward path. -/
def smoothmin (a b : ℝ) : ℝ :=
  let alpha : ℝ := -100
  (a * Real.exp (alpha * a) + b * Real.exp (alpha * b)) /
    (Real.exp (alpha * a) + Real.exp (alpha * b))

/-- Embedding of `v.dot(v)` for 3-vectors. -/
def Vec3.dot (a b : Vec3) : ℝ := a.x * b.x + a.y * b.y + a.z * b.z

/-- Embedding of `mag(v) = np.sqrt(v.dot(v))` (module level, line 12). -/
def mag (v : Vec3) : ℝ := Real.sqrt (v.dot v)

/-- Embedding of `(np.abs(v)).sum()` for a 3-vector. -/
def Vec3.sumAbs (v : Vec3) : ℝ := |v.x| + |v.y| + |v.z|

/-- Embedding of `(smoothabs(v)).sum()` for a 3-vector (elementwise `smoothabs`, then sum). -/
def Vec3.sumSmoothabs (v : Vec3) : ℝ := smoothabs v.x + smoothabs v.y + smoothabs v.z

/-- Components of a 3-vector as a list, for building the flat observation vector. -/
def Vec3.toList (v : Vec3) : List ℝ := [v.x, v.y, v.z]

/-- Embedding of the simulator's 6-component pose: position `pose[:3]` and Euler angles `pose[3:]`. -/
structure Pose where
  pos : Vec3
  ang : Vec3

/-- Components of a pose as a 6-element list (position then angles), matching the numpy layout. -/
def Pose.toList (p : Pose) : List ℝ := p.pos.toList ++ p.ang.toList

/-- Modelled from the spec: the state of the external physics simulator
(`physics_sim.PhysicsSim`, not under verification).  It exposes `pose`,
`v`, `angular_v` and `time`, and remembers the initial conditions so that
`reset()` can restore them. -/
structure SimState where
  init_pose : Pose
  init_v : Vec3
  init_angular_v : Vec3
  runtime : ℝ
  pose : Pose
  v : Vec3
  angular_v : Vec3
  time : ℝ

/-- Modelled from the spec: the simulator constructor `PhysicsSim(init_pose,
init_velocities, init_angle_velocities, runtime)`.  `None` arguments take the
simulator's internal defaults; the current state starts at the initial
conditions with time 0. -/
def PhysicsSim.create (init_pose : Option Pose) (init_velocities : Option Vec3)
    (init_angle_velocities : Option Vec3) (runtime : ℝ) : SimState :=
  let p := init_pose.getD ⟨⟨0, 0, 10⟩, ⟨0, 0, 0⟩⟩
  let v := init_velocities.getD ⟨0, 0, 0⟩
  let av := init_angle_velocities.getD ⟨0, 0, 0⟩
  { init_pose := p, init_v := v, init_angular_v := av, runtime := runtime,
    pose := p, v := v, angular_v := av, time := 0 }

/-- Modelled from the spec: `sim.reset()` restores the initial pose, velocity and
angular velocity and restarts the clock. -/
def SimState.reset (s : SimState) : SimState :=
  { s with pose := s.init_pose, v := s.init_v, angular_v := s.init_angular_v, time := 0 }

/-- Type of the external transition `sim.next_timestep(rotor_speeds)`: it
updates the simulator state and returns the `done` flag.  It is a parameter
because the simulator's dynamics are outside the verified source. -/
abbrev SimNext := SimState → (Fin 4 → ℝ) → SimState × Bool

/-- Embedding of the `Task` instance state (`task_AC.py`, class `Task`).
`distpunishment` and `highanglepunishment` are `Option`s because in Python the
attributes do not exist until `calc_reward` first assigns them. -/
structure Task where
  sim : SimState
  action_repeat : ℕ
  state_size : ℕ
  action_size : ℕ
  action_low : Fin 5 → ℝ
  action_high : Fin 5 → ℝ
  target_pos : Vec3
  target_vel : Vec3
  initvec2tgt : Vec3
  suminitdist : ℝ
  initdist2tgt : ℝ
  distpunishment : Option ℝ
  highanglepunishment : Option ℝ

/-- Body of `Task.__init__` (lines 17-55) on the path where both `init_pose`
and `target_pos` were supplied, so that line 53's
`self.initvec2tgt = target_pos - init_pose[:3]` is well defined. -/
def Task.initCore (init_pose : Pose) (init_velocities : Option Vec3)
    (init_angle_velocities : Option Vec3) (runtime : ℝ)
    (target_pos : Vec3) (target_vel : Option Vec3) : Task :=
  let sim := PhysicsSim.create (some init_pose) init_velocities init_angle_velocities runtime
  let initvec2tgt := target_pos - init_pose.pos
  { sim := sim
    action_repeat := 3
    state_size := 3 * (6 + 3)
    action_size := 5
    action_low := ![400, -1, -1, -1, -1]
    action_high := ![565, 1, 1, 1, 1]
    target_pos := target_pos
    target_vel := target_vel.getD ⟨0, 0, 0⟩
    initvec2tgt := initvec2tgt
    suminitdist := max initvec2tgt.sumAbs 5
    initdist2tgt := max (mag initvec2tgt) 5
    distpunishment := none
    highanglepunishment := none }

/-- Embedding of `Task.__init__` (lines 17-55).  All arguments default to
`None` in Python; line 53 subtracts the raw `target_pos` parameter from the raw
`init_pose[:3]`, which raises a `TypeError` when either was omitted, even
though line 50 gave `self.target_pos` a default. -/
def Task.init (init_pose : Option Pose) (init_velocities : Option Vec3)
    (init_angle_velocities : Option Vec3) (runtime : ℝ)
    (target_pos : Option Vec3) (target_vel : Option Vec3) : Except String Task :=
  match init_pose, target_pos with
  | some ip, some tp =>
      Except.ok (Task.initCore ip init_velocities init_angle_velocities runtime tp target_vel)
  | _, _ => Except.error "TypeError: unsupported operand types for sub with NoneType"

/-- Embedding of the angle correction in `calc_reward` (lines 81-84): a single
2*pi subtraction when the angle exceeds pi, not a full reduction. -/
def wrapAngle (a : ℝ) : ℝ := if Real.pi < a then a - 2 * Real.pi else a

/-- Embedding of `Task.calc_reward(time, position, angles, velocities)`
(lines 57-88).  Returns the updated task (the method assigns
`self.distpunishment` and `self.highanglepunishment`) together with the scalar
reward `np.tanh([2. - self.highanglepunishment])`. -/
def Task.calc_reward (self : Task) (_time : ℝ) (position : Vec3) (angles : Vec3)
    (_velocities : Vec3) : Task × ℝ :=
  let rvec2tgt := self.target_pos - position
  let _dist2tgt := mag rvec2tgt
  let distpunishment := rvec2tgt.sumSmoothabs / self.suminitdist
  let myphi := wrapAngle angles.x
  let mytheta := wrapAngle angles.y
  let highanglepunishment := smoothabs mytheta + smoothabs myphi
  ({ self with distpunishment := some distpunishment,
               highanglepunishment := some highanglepunishment },
   Real.tanh (2 - highanglepunishment))

/-- Embedding of `Task.get_reward` (lines 90-92): delegates to `calc_reward`
on the simulator's current time, position, angles and velocity. -/
def Task.get_reward (self : Task) : Task × ℝ :=
  self.calc_reward self.sim.time self.sim.pose.pos self.sim.pose.ang self.sim.v

/-- Embedding of `Task.get_max_reward` (lines 94-95). -/
def Task.get_max_reward (self : Task) : Task × ℝ :=
  let tr := self.calc_reward 1e8 self.target_pos ⟨0, 0, 0⟩ ⟨0, 0, 0⟩
  (tr.1, (self.action_repeat : ℝ) * tr.2)

/-- Embedding of line 102:
`rotor_speeds = np.maximum(actions[0] + actions[1:5], np.ones(4))`. -/
def rotorSpeeds (actions : Fin 5 → ℝ) : Fin 4 → ℝ :=
  fun i => max (actions 0 + actions i.succ) 1

/-- One iteration of the loop in `Task.step` (lines 103-106): advance the
simulator, add the current reward, append pose and angular velocity, and
overwrite `done` with this sub-step's flag. -/
def Task.substep (next : SimNext) (rs : Fin 4 → ℝ)
    (acc : Task × ℝ × List ℝ × Bool) : Task × ℝ × List ℝ × Bool :=
  let task := acc.1
  let sd := next task.sim rs
  let task : Task := { task with sim := sd.1 }
  let tr := task.get_reward
  (tr.1, acc.2.1 + tr.2,
   acc.2.2.1 ++ task.sim.pose.toList ++ task.sim.angular_v.toList, sd.2)

/-- The loop `for _ in range(self.action_repeat)` in `Task.step`. -/
def Task.stepIter (next : SimNext) (rs : Fin 4 → ℝ) :
    ℕ → Task × ℝ × List ℝ × Bool → Task × ℝ × List ℝ × Bool
  | 0, acc => acc
  | n + 1, acc => Task.stepIter next rs n (Task.substep next rs acc)

/-- Embedding of `Task.step(actions)` (lines 97-110).  Returns the updated
task and the Python return tuple `(next_state, reward, done)`.  The `done`
accumulator starts at `false` only as a placeholder: Python leaves it unbound
before the loop, and the loop always runs `action_repeat` greater than 0 times. -/
def Task.step (next : SimNext) (self : Task) (actions : Fin 5 → ℝ) :
    Task × List ℝ × ℝ × Bool :=
  let rs := rotorSpeeds actions
  let r := Task.stepIter next rs self.action_repeat (self, 0, [], false)
  (r.1, r.2.2.1, r.2.1, r.2.2.2)

/-- Embedding of `Task.reset(new_tgt_pos=None)` (lines 112-121).  Returns the
updated task and the returned state vector. -/
def Task.reset (self : Task) (new_tgt_pos : Option Vec3) : Task × List ℝ :=
  let self : Task := { self with sim := self.sim.reset }
  let state := (List.replicate self.action_repeat
    (self.sim.pose.toList ++ self.sim.angular_v.toList)).flatten
  match new_tgt_pos with
  | some t =>
      let self : Task := { self with target_pos := t }
      let initvec2tgt := self.target_pos - self.sim.pose.pos
      ({ self with initvec2tgt := initvec2tgt,
                   suminitdist := max initvec2tgt.sumSmoothabs 5,
                   initdist2tgt := mag initvec2tgt }, state)
  | none => (self, state)

/-- Simulator state reached after `n` sub-steps with constant rotor speeds;
used to state properties of `Task.step`'s loop. -/
def simTrace (next : SimNext) (rs : Fin 4 → ℝ) (s : SimState) : ℕ → SimState
  | 0 => s
  | n + 1 => (next (simTrace next rs s n) rs).1

/-- The scalar reward `get_reward` computes from a given simulator state using
a task's constants. -/
def rewardAt (task : Task) (s : SimState) : ℝ :=
  (task.calc_reward s.time s.pose.pos s.pose.ang s.v).2

/-! Helper lemmas about the numeric primitives. -/

/-- Exponential form of the hyperbolic tangent, the workhorse for bounds. -/
theorem tanh_exp_form (x : ℝ) : Real.tanh x = 1 - 2 / (Real.exp (2 * x) + 1) := by
  have hx : (0 : ℝ) < Real.exp x := Real.exp_pos x
  have h2 : Real.exp (2 * x) = Real.exp x * Real.exp x := by
    rw [two_mul, Real.exp_add]
  rw [Real.tanh_eq_sinh_div_cosh, Real.sinh_eq, Real.cosh_eq, h2, Real.exp_neg]
  have hne : Real.exp x ≠ 0 := ne_of_gt hx
  have hden : (0 : ℝ) < Real.exp x + (Real.exp x)⁻¹ := by positivity
  have hden2 : (0 : ℝ) < Real.exp x * Real.exp x + 1 := by positivity
  field_simp
  ring

theorem tanh_lt_one (x : ℝ) : Real.tanh x < 1 := by
  rw [tanh_exp_form]
  have h : (0 : ℝ) < Real.exp (2 * x) + 1 := by positivity
  have : (0 : ℝ) < 2 / (Real.exp (2 * x) + 1) := by positivity
  linarith

theorem neg_one_lt_tanh (x : ℝ) : -1 < Real.tanh x := by
  rw [tanh_exp_form]
  have h : (0 : ℝ) < Real.exp (2 * x) := Real.exp_pos _
  have h1 : (0 : ℝ) < Real.exp (2 * x) + 1 := by linarith
  have : 2 / (Real.exp (2 * x) + 1) < 2 := by
    rw [div_lt_iff₀ h1]; nlinarith
  linarith

theorem tanh_strictMono : StrictMono Real.tanh := by
  intro a b hab
  rw [tanh_exp_form, tanh_exp_form]
  have ha : (0 : ℝ) < Real.exp (2 * a) + 1 := by positivity
  have he : Real.exp (2 * a) < Real.exp (2 * b) := Real.exp_lt_exp.mpr (by linarith)
  have : 2 / (Real.exp (2 * b) + 1) < 2 / (Real.exp (2 * a) + 1) :=
    div_lt_div_of_pos_left (by norm_num) ha (by linarith)
  linarith

theorem smoothabs_pos (x : ℝ) : 0 < smoothabs x :=
  Real.sqrt_pos.mpr (by positivity)

theorem smoothabs_lt_smoothabs {x y : ℝ} (h0 : 0 ≤ x) (hxy : x < y) :
    smoothabs x < smoothabs y :=
  Real.sqrt_lt_sqrt (by positivity) (by nlinarith)

theorem wrapAngle_of_le {a : ℝ} (h : a ≤ Real.pi) : wrapAngle a = a :=
  if_neg (not_lt.mpr h)

theorem wrapAngle_of_gt {a : ℝ} (h : Real.pi < a) : wrapAngle a = a - 2 * Real.pi :=
  if_pos h

/-- The scalar returned by `calc_reward` in closed form: it is determined by
the two wrapped angles alone. -/
theorem calc_reward_snd (task : Task) (t : ℝ) (p a v : Vec3) :
    (task.calc_reward t p a v).2 =
      Real.tanh (2 - (smoothabs (wrapAngle a.y) + smoothabs (wrapAngle a.x))) := rfl

/-- The task returned by `calc_reward`: only the two punishment attributes
are (re)assigned. -/
theorem calc_reward_fst (task : Task) (t : ℝ) (p a v : Vec3) :
    (task.calc_reward t p a v).1 =
      { task with
          distpunishment := some ((task.target_pos - p).sumSmoothabs / task.suminitdist)
          highanglepunishment :=
            some (smoothabs (wrapAngle a.y) + smoothabs (wrapAngle a.x)) } := rfl

/-! Concrete objects shared by several witnesses and counterexamples. -/

/-- Concrete initial pose at the origin with zero angles. -/
def pose0 : Pose := ⟨⟨0, 0, 0⟩, ⟨0, 0, 0⟩⟩

/-! Claim theorems. -/

/-- C3: the claim says constructing a `Task` with `target_pos` omitted succeeds
and uses the internal default target.  Evaluating the constructor at such an
input shows it instead fails: line 53 subtracts the raw `target_pos` parameter
(`None`) from `init_pose[:3]`, raising a `TypeError` before construction
completes, despite line 50 installing the default target. -/
theorem C3_target_pos_none_raises :
    Task.init (some pose0) none none 5 none none =
      Except.error "TypeError: unsupported operand types for sub with NoneType" := rfl

/-- C4: for every call (all real inputs; the reals model finite non-NaN
doubles), `calc_reward` — and hence `get_reward` — returns a value strictly
between -1 and 1, because the returned scalar is a hyperbolic tangent. -/
theorem C4_reward_in_open_interval (task : Task) (t : ℝ) (p a v : Vec3) :
    (-1 < (task.calc_reward t p a v).2 ∧ (task.calc_reward t p a v).2 < 1) ∧
    (-1 < task.get_reward.2 ∧ task.get_reward.2 < 1) := by
  constructor
  · rw [calc_reward_snd]
    exact ⟨neg_one_lt_tanh _, tanh_lt_one _⟩
  · rw [Task.get_reward, calc_reward_snd]
    exact ⟨neg_one_lt_tanh _, tanh_lt_one _⟩

/-- C5: the scalar returned by `calc_reward` depends only on the angles
argument and the task's constants — two calls with equal angles but arbitrary
differing time, position and velocity return equal rewards — while the
position argument reaches only the stored `distpunishment` attribute of the
returned task, never the returned value. -/
theorem C5_reward_depends_only_on_angles (task : Task) (t1 t2 : ℝ)
    (p1 p2 a v1 v2 : Vec3) :
    (task.calc_reward t1 p1 a v1).2 = (task.calc_reward t2 p2 a v2).2 ∧
    (task.calc_reward t1 p1 a v1).1 =
      { task with
          distpunishment := some ((task.target_pos - p1).sumSmoothabs / task.suminitdist)
          highanglepunishment :=
            some (smoothabs (wrapAngle a.y) + smoothabs (wrapAngle a.x)) } :=
  ⟨rfl, rfl⟩

/-- C6: `calc_reward` applies a single 2*pi correction per angle: the reward at
pitch pi + 0.1 equals the reward at pitch 0.1 - pi, while pitch 3*pi + 0.1 is
corrected only once (to pi + 0.1, not to 0.1), so its reward differs from the
reward at pitch 0.1. -/
theorem C6_single_two_pi_correction (task : Task) (t : ℝ) (p v : Vec3)
    (roll yaw : ℝ) :
    (task.calc_reward t p ⟨roll, Real.pi + 0.1, yaw⟩ v).2 =
      (task.calc_reward t p ⟨roll, 0.1 - Real.pi, yaw⟩ v).2 ∧
    (task.calc_reward t p ⟨roll, 3 * Real.pi + 0.1, yaw⟩ v).2 ≠
      (task.calc_reward t p ⟨roll, 0.1, yaw⟩ v).2 := by
  have hpi := Real.pi_gt_three
  constructor
  · rw [calc_reward_snd, calc_reward_snd]
    have h1 : wrapAngle (Real.pi + 0.1) = 0.1 - Real.pi := by
      rw [wrapAngle_of_gt (by linarith)]; ring
    have h2 : wrapAngle (0.1 - Real.pi) = 0.1 - Real.pi :=
      wrapAngle_of_le (by linarith)
    simp only [h1, h2]
  · rw [calc_reward_snd, calc_reward_snd]
    have h1 : wrapAngle (3 * Real.pi + 0.1) = Real.pi + 0.1 := by
      rw [wrapAngle_of_gt (by linarith)]; ring
    have h2 : wrapAngle (0.1 : ℝ) = 0.1 := wrapAngle_of_le (by linarith)
    simp only [h1, h2]
    have hmono : smoothabs (0.1 : ℝ) < smoothabs (Real.pi + 0.1) :=
      smoothabs_lt_smoothabs (by norm_num) (by linarith)
    have hlt :
        Real.tanh (2 - (smoothabs (Real.pi + 0.1) + smoothabs (wrapAngle roll))) <
          Real.tanh (2 - (smoothabs 0.1 + smoothabs (wrapAngle roll))) :=
      tanh_strictMono (by linarith)
    exact ne_of_lt hlt

/-- C8: the rotor-speed computation of `step` (line 102) floors each rotor at
1.0: `rotor_speeds[i] = max(actions[0] + actions[1+i], 1.0)`, and the action
`[0, -5, -5, -5, -5]` yields rotor speeds `[1, 1, 1, 1]`. -/
theorem C8_rotor_speed_floor :
    (∀ (a : Fin 5 → ℝ) (i : Fin 4), rotorSpeeds a i = max (a 0 + a i.succ) 1) ∧
    (∀ i : Fin 4, rotorSpeeds ![0, -5, -5, -5, -5] i = 1) := by
  refine ⟨fun a i => rfl, fun i => ?_⟩
  fin_cases i <;>
    simp [rotorSpeeds, Fin.succ] <;> norm_num

/-- Concrete task built by the constructor from the origin pose with target
(0, 0, 10), used to instantiate hypotheses of the general theorems. -/
def wTask : Task := Task.initCore pose0 none none 5 ⟨0, 0, 10⟩ none

/-- C1 (counterexample): after `reset` with a new target the constants are NOT
recomputed with the construction policy.  From the origin, resetting to target
(0, 0, 0) leaves `initdist2tgt` at 0, not at the floored `max(L2 norm, 5) = 5`;
resetting to target (6, 0, 0) sets `suminitdist` to the smooth-absolute sum,
which differs from the plain-absolute `max(sum of abs, 5) = 6`. -/
theorem C1_counterexample :
    match Task.init (some pose0) none none 5 (some ⟨0, 0, 10⟩) none with
    | Except.ok task =>
        ((task.reset (some ⟨0, 0, 0⟩)).1).initdist2tgt ≠
          max (mag ((⟨0, 0, 0⟩ : Vec3) - pose0.pos)) 5 ∧
        ((task.reset (some ⟨6, 0, 0⟩)).1).suminitdist ≠
          max (((⟨6, 0, 0⟩ : Vec3) - pose0.pos).sumAbs) 5
    | Except.error _ => False := by
  simp only [Task.init]
  constructor
  · have hl : ((((Task.initCore pose0 none none 5 ⟨0, 0, 10⟩ none).reset
        (some ⟨0, 0, 0⟩)).1)).initdist2tgt = Real.sqrt 0 := by
      simp only [Task.reset, Task.initCore, PhysicsSim.create, SimState.reset, pose0,
        Option.getD, mag, Vec3.sub_def, Vec3.dot]
      norm_num
    have hr : max (mag ((⟨0, 0, 0⟩ : Vec3) - pose0.pos)) 5 = 5 := by
      simp only [mag, pose0, Vec3.sub_def, Vec3.dot]
      norm_num [Real.sqrt_zero]
    rw [hl, hr, Real.sqrt_zero]
    norm_num
  · have h6 : (6 : ℝ) < smoothabs 6 := by
      rw [smoothabs, show ((6 : ℝ) ^ 2 + 10e-16) = 36 + 10e-16 by norm_num]
      exact (Real.lt_sqrt (by norm_num)).mpr (by norm_num)
    have h0 : (0 : ℝ) < smoothabs 0 := smoothabs_pos 0
    have hl : ((((Task.initCore pose0 none none 5 ⟨0, 0, 10⟩ none).reset
        (some ⟨6, 0, 0⟩)).1)).suminitdist =
          max (smoothabs 6 + smoothabs 0 + smoothabs 0) 5 := by
      simp only [Task.reset, Task.initCore, PhysicsSim.create, SimState.reset, pose0,
        Option.getD, Vec3.sub_def, Vec3.sumSmoothabs]
      norm_num
    have hr : max (((⟨6, 0, 0⟩ : Vec3) - pose0.pos).sumAbs) 5 = 6 := by
      simp only [Vec3.sumAbs, pose0, Vec3.sub_def]
      norm_num
    rw [hl, hr, max_eq_left (by linarith)]
    intro hcontra
    linarith

/-- C1 (amended): after `reset` with a new target `t` the normalization
constants are recomputed, but not with the construction policy:
`suminitdist` becomes `max` of the SMOOTH-absolute sum of `t` minus the
initial position with floor 5.0 (the constructor uses the plain absolute sum),
and `initdist2tgt` becomes the plain L2 norm with NO 5.0 floor. -/
theorem C1_reset_recompute_policy (task : Task) (t : Vec3) :
    ((task.reset (some t)).1).suminitdist =
      max ((t - task.sim.init_pose.pos).sumSmoothabs) 5 ∧
    ((task.reset (some t)).1).initdist2tgt = mag (t - task.sim.init_pose.pos) :=
  ⟨rfl, rfl⟩

/-- C9: the L1 normalization constant `suminitdist` is at least 5 after
construction and stays at least 5 after every reset (with or without a new
target), and after `reset` with a new target `t` the vector `initvec2tgt`
equals `t` minus the simulator's initial position (the pose `sim.reset()`
restores). -/
theorem C9_suminitdist_floor_invariant :
    (∀ ip iv iav (rt : ℝ) tp tv (task0 : Task),
        Task.init ip iv iav rt tp tv = Except.ok task0 → 5 ≤ task0.suminitdist) ∧
    (∀ (task : Task) (nt : Option Vec3),
        5 ≤ task.suminitdist → 5 ≤ ((task.reset nt).1).suminitdist) ∧
    (∀ (task : Task) (t : Vec3),
        ((task.reset (some t)).1).initvec2tgt = t - task.sim.init_pose.pos) := by
  refine ⟨?_, ?_, ?_⟩
  · intro ip iv iav rt tp tv task0 h
    cases ip with
    | none => simp [Task.init] at h
    | some p =>
      cases tp with
      | none => simp [Task.init] at h
      | some tgt =>
        simp only [Task.init, Except.ok.injEq] at h
        rw [← h]
        exact le_max_right _ _
  · intro task nt h
    cases nt with
    | none => exact h
    | some t => exact le_max_right _ _
  · intro task t
    rfl

/-- Witness for C9 at the concrete constructor input `pose0`, target
(0, 0, 10), and a reset to target (1, 2, 3). -/
theorem C9_witness :
    (Task.init (some pose0) none none 5 (some ⟨0, 0, 10⟩) none = Except.ok wTask ∧
      5 ≤ wTask.suminitdist) ∧
    5 ≤ ((wTask.reset none).1).suminitdist ∧
    ((wTask.reset (some ⟨1, 2, 3⟩)).1).initvec2tgt =
      (⟨1, 2, 3⟩ : Vec3) - wTask.sim.init_pose.pos := by
  have h0 : Task.init (some pose0) none none 5 (some ⟨0, 0, 10⟩) none =
      Except.ok wTask := rfl
  have h1 := C9_suminitdist_floor_invariant.1 _ _ _ _ _ _ _ h0
  exact ⟨⟨h0, h1⟩, C9_suminitdist_floor_invariant.2.1 wTask none h1,
    C9_suminitdist_floor_invariant.2.2 wTask ⟨1, 2, 3⟩⟩

theorem stepIter_zero (next : SimNext) (rs : Fin 4 → ℝ) (acc : Task × ℝ × List ℝ × Bool) :
    Task.stepIter next rs 0 acc = acc := rfl

theorem stepIter_succ (next : SimNext) (rs : Fin 4 → ℝ) (n : ℕ)
    (acc : Task × ℝ × List ℝ × Bool) :
    Task.stepIter next rs (n + 1) acc = Task.stepIter next rs n (Task.substep next rs acc) := rfl

/-- C2 (amended): the `done` flag returned by `step` is the flag reported by
the simulator on the LAST of the 3 sub-steps; `done` is overwritten on every
loop iteration (line 104), not accumulated. -/
theorem C2_done_is_last_substep (next : SimNext) (task : Task) (a : Fin 5 → ℝ)
    (h : task.action_repeat = 3) :
    (task.step next a).2.2.2 =
      (next (simTrace next (rotorSpeeds a) task.sim 2) (rotorSpeeds a)).2 := by
  show (Task.stepIter next (rotorSpeeds a) task.action_repeat
      (task, 0, [], false)).2.2.2 = _
  rw [h]
  rfl

/-- Transition for the external simulator that reports `done` exactly once, on
the sub-step taken from the initial state (time 0), and not afterwards. -/
def cexNext : SimNext := fun s _ =>
  ({ s with time := s.time + 1 }, if s.time < 0.5 then true else false)

/-- C2 (counterexample): with a simulator that reports `done` on the first
sub-step only, `step` returns `done = false` — the first sub-step's `true` is
not accumulated, contradicting the claim that `step` is terminal if any of the
3 sub-steps reported done. -/
theorem C2_counterexample :
    (wTask.step cexNext ![0, -5, -5, -5, -5]).2.2.2 = false ∧
    (cexNext wTask.sim (rotorSpeeds ![0, -5, -5, -5, -5])).2 = true := by
  constructor
  · show (if ((0 : ℝ) + 1 + 1 < 0.5) then true else false) = false
    norm_num
  · show (if ((0 : ℝ) < 0.5) then true else false) = true
    norm_num

/-- Witness for the amended C2 at a concrete task, transition and action. -/
theorem C2_done_witness :
    wTask.action_repeat = 3 ∧
    (wTask.step cexNext ![0, -5, -5, -5, -5]).2.2.2 =
      (cexNext (simTrace cexNext (rotorSpeeds ![0, -5, -5, -5, -5]) wTask.sim 2)
        (rotorSpeeds ![0, -5, -5, -5, -5])).2 :=
  ⟨rfl, C2_done_is_last_substep cexNext wTask ![0, -5, -5, -5, -5] rfl⟩

/-- C7: with `action_repeat = 3`, `step` returns a state vector of exactly 27
elements — pose (6 values) then angular velocity (3 values) per sub-step,
oldest sub-step first — and a total reward equal to the plain sum of the
rewards computed after each of the 3 sub-steps, with no averaging. -/
theorem C7_step_state_and_reward (next : SimNext) (task : Task) (a : Fin 5 → ℝ)
    (h : task.action_repeat = 3) :
    (task.step next a).2.1 =
      ((simTrace next (rotorSpeeds a) task.sim 1).pose.toList ++
        (simTrace next (rotorSpeeds a) task.sim 1).angular_v.toList) ++
      ((simTrace next (rotorSpeeds a) task.sim 2).pose.toList ++
        (simTrace next (rotorSpeeds a) task.sim 2).angular_v.toList) ++
      ((simTrace next (rotorSpeeds a) task.sim 3).pose.toList ++
        (simTrace next (rotorSpeeds a) task.sim 3).angular_v.toList) ∧
    (task.step next a).2.1.length = 27 ∧
    (task.step next a).2.2.1 =
      rewardAt task (simTrace next (rotorSpeeds a) task.sim 1) +
      rewardAt task (simTrace next (rotorSpeeds a) task.sim 2) +
      rewardAt task (simTrace next (rotorSpeeds a) task.sim 3) := by
  have hstate : (task.step next a).2.1 =
      ((simTrace next (rotorSpeeds a) task.sim 1).pose.toList ++
        (simTrace next (rotorSpeeds a) task.sim 1).angular_v.toList) ++
      ((simTrace next (rotorSpeeds a) task.sim 2).pose.toList ++
        (simTrace next (rotorSpeeds a) task.sim 2).angular_v.toList) ++
      ((simTrace next (rotorSpeeds a) task.sim 3).pose.toList ++
        (simTrace next (rotorSpeeds a) task.sim 3).angular_v.toList) := by
    show (Task.stepIter next (rotorSpeeds a) task.action_repeat
        (task, 0, [], false)).2.2.1 = _
    rw [h]
    show ([] ++ (simTrace next (rotorSpeeds a) task.sim 1).pose.toList ++
        (simTrace next (rotorSpeeds a) task.sim 1).angular_v.toList ++
        (simTrace next (rotorSpeeds a) task.sim 2).pose.toList ++
        (simTrace next (rotorSpeeds a) task.sim 2).angular_v.toList ++
        (simTrace next (rotorSpeeds a) task.sim 3).pose.toList ++
        (simTrace next (rotorSpeeds a) task.sim 3).angular_v.toList) = _
    simp [List.append_assoc]
  refine ⟨hstate, ?_, ?_⟩
  · rw [hstate]
    simp [Pose.toList, Vec3.toList]
  · show (Task.stepIter next (rotorSpeeds a) task.action_repeat
        (task, 0, [], false)).2.1 = _
    rw [h]
    show ((0 : ℝ) + rewardAt task (simTrace next (rotorSpeeds a) task.sim 1) +
        rewardAt task (simTrace next (rotorSpeeds a) task.sim 2) +
        rewardAt task (simTrace next (rotorSpeeds a) task.sim 3)) = _
    ring

/-- Witness for C7 at a concrete task, transition and action. -/
theorem C7_step_witness :
    wTask.action_repeat = 3 ∧
    ((wTask.step cexNext ![0, -5, -5, -5, -5]).2.1 =
      ((simTrace cexNext (rotorSpeeds ![0, -5, -5, -5, -5]) wTask.sim 1).pose.toList ++
        (simTrace cexNext (rotorSpeeds ![0, -5, -5, -5, -5]) wTask.sim 1).angular_v.toList) ++
      ((simTrace cexNext (rotorSpeeds ![0, -5, -5, -5, -5]) wTask.sim 2).pose.toList ++
        (simTrace cexNext (rotorSpeeds ![0, -5, -5, -5, -5]) wTask.sim 2).angular_v.toList) ++
      ((simTrace cexNext (rotorSpeeds ![0, -5, -5, -5, -5]) wTask.sim 3).pose.toList ++
        (simTrace cexNext (rotorSpeeds ![0, -5, -5, -5, -5]) wTask.sim 3).angular_v.toList) ∧
    (wTask.step cexNext ![0, -5, -5, -5, -5]).2.1.length = 27 ∧
    (wTask.step cexNext ![0, -5, -5, -5, -5]).2.2.1 =
      rewardAt wTask (simTrace cexNext (rotorSpeeds ![0, -5, -5, -5, -5]) wTask.sim 1) +
      rewardAt wTask (simTrace cexNext (rotorSpeeds ![0, -5, -5, -5, -5]) wTask.sim 2) +
      rewardAt wTask (simTrace cexNext (rotorSpeeds ![0, -5, -5, -5, -5]) wTask.sim 3)) :=
  ⟨rfl, C7_step_state_and_reward cexNext wTask ![0, -5, -5, -5, -5] rfl⟩

/-- C10: at zero roll and pitch the reward is `tanh(2 - 2 * sqrt(1e-15))`,
whose only angle-punishment contribution is `smoothabs 0 = sqrt(1e-15)`
(approximately 3.16e-8); numerically the reward lies in
(0.964027, 0.964028), matching tanh(2) = 0.9640276 to the printed digits. -/
theorem C10_reward_at_zero_angles (task : Task) (t : ℝ) (p v : Vec3) (yaw : ℝ) :
    (task.calc_reward t p ⟨0, 0, yaw⟩ v).2 =
      Real.tanh (2 - (smoothabs 0 + smoothabs 0)) ∧
    smoothabs 0 = Real.sqrt 10e-16 ∧
    0.964027 < (task.calc_reward t p ⟨0, 0, yaw⟩ v).2 ∧
    (task.calc_reward t p ⟨0, 0, yaw⟩ v).2 < 0.964028 := by
  have hpi := Real.pi_gt_three
  have hwrap : wrapAngle (0 : ℝ) = 0 := wrapAngle_of_le (by linarith)
  have hval : (task.calc_reward t p ⟨0, 0, yaw⟩ v).2 =
      Real.tanh (2 - (smoothabs 0 + smoothabs 0)) := by
    rw [calc_reward_snd]
    simp only [hwrap]
  have hzero : smoothabs 0 = Real.sqrt 10e-16 := by
    rw [smoothabs]
    norm_num
  -- numeric bounds for tanh(2 - 2 s) with s = sqrt(1e-15)
  have hs_pos : (0 : ℝ) < smoothabs 0 := smoothabs_pos 0
  have hs_le : smoothabs 0 ≤ 1e-6 := by
    rw [hzero]
    calc Real.sqrt 10e-16 ≤ Real.sqrt ((1e-6 : ℝ) ^ 2) :=
          Real.sqrt_le_sqrt (by norm_num)
      _ = 1e-6 := Real.sqrt_sq (by norm_num)
  set s := smoothabs 0 with hs
  have hform : Real.tanh (2 - (s + s)) =
      1 - 2 / (Real.exp (4 - 4 * s) + 1) := by
    rw [tanh_exp_form]
    ring_nf
  have he1gt : (2.7182818283 : ℝ) < Real.exp 1 := Real.exp_one_gt_d9
  have he1lt : Real.exp 1 < 2.7182818286 := Real.exp_one_lt_d9
  have he4 : Real.exp 4 = Real.exp 1 * Real.exp 1 * Real.exp 1 * Real.exp 1 := by
    rw [show (4 : ℝ) = 1 + 1 + 1 + 1 by norm_num, Real.exp_add, Real.exp_add, Real.exp_add]
  have hepos : (0 : ℝ) < Real.exp 1 := Real.exp_pos 1
  have h2lt : Real.exp 1 * Real.exp 1 < 7.3890561 := by nlinarith
  have h2gt : (7.389056 : ℝ) < Real.exp 1 * Real.exp 1 := by nlinarith
  have he4_lt : Real.exp 4 < 54.5982 := by
    rw [he4]
    calc Real.exp 1 * Real.exp 1 * Real.exp 1 * Real.exp 1
        = (Real.exp 1 * Real.exp 1) * (Real.exp 1 * Real.exp 1) := by ring
      _ < 7.3890561 * 7.3890561 :=
          mul_lt_mul'' h2lt h2lt (by positivity) (by positivity)
      _ < 54.5982 := by norm_num
  have he4_gt : (54.5981 : ℝ) < Real.exp 4 := by
    rw [he4]
    calc (54.5981 : ℝ) < 7.389056 * 7.389056 := by norm_num
      _ < (Real.exp 1 * Real.exp 1) * (Real.exp 1 * Real.exp 1) :=
          mul_lt_mul'' h2gt h2gt (by norm_num) (by norm_num)
      _ = Real.exp 1 * Real.exp 1 * Real.exp 1 * Real.exp 1 := by ring
  -- bounds on X = exp (4 - 4 s)
  have hX_lt : Real.exp (4 - 4 * s) < 54.5982 := by
    have : Real.exp (4 - 4 * s) < Real.exp 4 :=
      Real.exp_lt_exp.mpr (by nlinarith)
    linarith
  have hX_gt : (54.5978 : ℝ) < Real.exp (4 - 4 * s) := by
    have hsplit : Real.exp (4 - 4 * s) = Real.exp 4 * Real.exp (-(4 * s)) := by
      rw [← Real.exp_add]; ring_nf
    have hlin : 1 - 4 * s ≤ Real.exp (-(4 * s)) := by
      have := Real.add_one_le_exp (-(4 * s))
      linarith
    have hlb : (1 : ℝ) - 4e-6 ≤ 1 - 4 * s := by nlinarith
    have hpos : (0 : ℝ) < Real.exp (-(4 * s)) := Real.exp_pos _
    rw [hsplit]
    nlinarith
  have hXpos : (0 : ℝ) < Real.exp (4 - 4 * s) + 1 := by positivity
  constructor
  · exact hval
  refine ⟨hzero, ?_, ?_⟩
  · rw [hval, hform]
    have hdiv : 2 / (Real.exp (4 - 4 * s) + 1) < 0.035973 := by
      rw [div_lt_iff₀ hXpos]
      nlinarith
    linarith
  · rw [hval, hform]
    have hdiv : (0.035972 : ℝ) < 2 / (Real.exp (4 - 4 * s) + 1) := by
      rw [lt_div_iff₀ hXpos]
      nlinarith
    linarith

end QuadTask
